import Mathlib

/-!
Verification of the `tln-backend` guarded-create workflow
(`Usecase/market_usecase.go`, `MarketUseCase.CreateMarket`) and of the
user request handlers (`Handlers/user_handler.go`).

Go values of pointer type (`*T`) are modelled as `Option`; a Go `error`
value is modelled by its message string (`Option String`).  Machine
integers never overflow here (only small literal status codes), so the
Go `int` of `ErrorResponse.Code` is modelled as `Int`.  Attribute types
that the workflow never inspects (times, coordinates) are carried as
opaque strings; the workflow only copies them verbatim.
-/

/-- Error payload `entitiesDtos.ErrorResponse` (`Code int`, `Message string`). -/
structure ErrorResponse where
  code : Int
  message : String
deriving Repr, DecidableEq

/-- Inbound payload `entitiesDtos.MarketRequest`: the fields read by
`MarketUseCase.CreateMarket`. -/
structure MarketRequest where
  providerID : String
  name : String
  address : String
  description : String
  image : String
  openTime : String
  closeTime : String
  latitude : String
  longitude : String
deriving Repr, DecidableEq

/-- Persistable entity `entities.Market`: the request fields plus the
workflow-generated identifier. -/
structure Market where
  id : String
  providerID : String
  name : String
  address : String
  description : String
  image : String
  openTime : String
  closeTime : String
  latitude : String
  longitude : String
deriving Repr, DecidableEq

/-- Parent entity `entities.Provider`; the workflow only checks its
existence (the looked-up value is discarded with `_`), so only the
identifier is modelled. -/
structure Provider where
  id : String
deriving Repr, DecidableEq

/-- Capability interface `Interfaces.IMarket` consumed by the use case,
over an abstract store state `σ`.  Each Go method returning
`(*T, *ErrorResponse)` becomes `σ → ... → Option T × Option ErrorResponse`;
the write `CreateMarket(*Market) error` returns the error message and the
successor state. -/
structure IMarket (σ : Type) where
  getProviderByID : σ → String → Option Provider × Option ErrorResponse
  getMarketByName : σ → String → Option Market × Option ErrorResponse
  createMarket : σ → Market → Option String × σ
  getMarketWithProviderByID : σ → String → Option Market × Option ErrorResponse

/-- Outcome of one `CreateMarket` invocation: the Go return pair
`(*entities.Market, *entitiesDtos.ErrorResponse)`, the store state after
the call, and the list of entities passed to the repository write
(instrumentation: one entry per issued write). -/
structure CreateMarketResult (σ : Type) where
  market : Option Market
  err : Option ErrorResponse
  state : σ
  writes : List Market
deriving Repr

/-- The mapping step of `CreateMarket`: `marketEntity := entities.Market{ID:
uuid.New().String(), ...}` — a fresh identifier plus all other fields copied
verbatim from the request.  The generated UUID string is passed in as
`genId` (identifier generation is the only nondeterminism of the workflow). -/
def marketEntityOf (genId : String) (marketReq : MarketRequest) : Market :=
  { id := genId
    providerID := marketReq.providerID
    name := marketReq.name
    address := marketReq.address
    description := marketReq.description
    image := marketReq.image
    openTime := marketReq.openTime
    closeTime := marketReq.closeTime
    latitude := marketReq.latitude
    longitude := marketReq.longitude }

/-- Continuation of `CreateMarket` after the name-uniqueness lookup has
returned (`existingMarket`, and any error was `nil` or had code 404):
the `existingMarket != nil` conflict check, mapping, persist, and
enrichment read of `MarketUseCase.CreateMarket`. -/
def createMarketAfterNameCheck {σ : Type} (repo : IMarket σ) (genId : String)
    (s : σ) (marketReq : MarketRequest) (existingMarket : Option Market) :
    CreateMarketResult σ :=
  if existingMarket.isSome then
    ⟨none, some { code := 400, message := "Market already exists" }, s, []⟩
  else
    let marketEntity := marketEntityOf genId marketReq
    match repo.createMarket s marketEntity with
    | (some errMsg, s1) =>
        ⟨none, some { code := 500, message := "Failed to create market: " ++ errMsg },
          s1, [marketEntity]⟩
    | (none, s1) =>
        match repo.getMarketWithProviderByID s1 marketEntity.id with
        | (_, some errRes) =>
            ⟨none,
              some { code := 500,
                     message := "Failed to retrieve market details: " ++ errRes.message },
              s1, [marketEntity]⟩
        | (createdMarket, none) => ⟨createdMarket, none, s1, [marketEntity]⟩

/-- Shallow embedding of `MarketUseCase.CreateMarket`
(`Usecase/market_usecase.go`): provider-existence check, name-uniqueness
check (a lookup error with code 404 means "no conflict" and falls through),
then `createMarketAfterNameCheck`. -/
def CreateMarket {σ : Type} (repo : IMarket σ) (genId : String) (s : σ)
    (marketReq : MarketRequest) : CreateMarketResult σ :=
  match repo.getProviderByID s marketReq.providerID with
  | (_, some _) =>
      ⟨none, some { code := 404, message := "Provider not found" }, s, []⟩
  | (_, none) =>
      match repo.getMarketByName s marketReq.name with
      | (existingMarket, some errRes) =>
          if errRes.code ≠ 404 then
            ⟨none,
              some { code := 500,
                     message := "Failed to check market existence: " ++ errRes.message },
              s, []⟩
          else
            createMarketAfterNameCheck repo genId s marketReq existingMarket
      | (existingMarket, none) =>
          createMarketAfterNameCheck repo genId s marketReq existingMarket

/-- Modelled from the spec: the Persistence Gateway (the repository
implementation behind `Interfaces.IMarket` is not part of the sources) —
an in-memory relational store with providers, markets, and a map
`enrichFailure` giving, for an identifier, the message of a transient
failure of the enrichment read (`GetTargetWithParentByID(id) →
(EnrichedTargetEntity | ReadError)`), or `none` when that read works. -/
structure Store where
  providers : List Provider
  markets : List Market
  enrichFailure : String → Option String

/-- Modelled from the spec: `GetParentByID(id) → (ParentEntity | NotFoundError)`. -/
def Store.getProviderByID (s : Store) (id : String) :
    Option Provider × Option ErrorResponse :=
  match s.providers.find? (fun p => p.id == id) with
  | some p => (some p, none)
  | none => (none, some { code := 404, message := "provider not found" })

/-- Modelled from the spec: `GetTargetByName(name) → (TargetEntity |
NotFoundError | OtherError)`; the in-memory store itself only produces the
not-found error. -/
def Store.getMarketByName (s : Store) (name : String) :
    Option Market × Option ErrorResponse :=
  match s.markets.find? (fun m => m.name == name) with
  | some m => (some m, none)
  | none => (none, some { code := 404, message := "record not found" })

/-- Modelled from the spec: `CreateTarget(entity) → (ok | WriteError)`; the
in-memory write appends the entity and always succeeds. -/
def Store.createMarket (s : Store) (m : Market) : Option String × Store :=
  (none, { s with markets := s.markets ++ [m] })

/-- Modelled from the spec: `GetTargetWithParentByID(id) →
(EnrichedTargetEntity | ReadError)`; a transient read failure recorded in
`enrichFailure` surfaces as an error, otherwise the entity is looked up by
identifier. -/
def Store.getMarketWithProviderByID (s : Store) (id : String) :
    Option Market × Option ErrorResponse :=
  match s.enrichFailure id with
  | some msg => (none, some { code := 500, message := msg })
  | none =>
      match s.markets.find? (fun m => m.id == id) with
      | some m => (some m, none)
      | none => (none, some { code := 404, message := "record not found" })

/-- The in-memory store packaged as the `Interfaces.IMarket` capability. -/
def storeRepo : IMarket Store :=
  { getProviderByID := Store.getProviderByID
    getMarketByName := Store.getMarketByName
    createMarket := Store.createMarket
    getMarketWithProviderByID := Store.getMarketWithProviderByID }

/-! Concrete fixtures used by witnesses and counterexamples. -/

/-- A concrete inbound request used by witnesses. -/
def reqA : MarketRequest :=
  { providerID := "P1", name := "Central Market", address := "addr",
    description := "desc", image := "img", openTime := "08:00",
    closeTime := "17:00", latitude := "13.7", longitude := "100.5" }

/-- An in-memory store holding nothing, with all enrichment reads working. -/
def emptyStore : Store := ⟨[], [], fun _ => none⟩

/-- A repository stub whose name-uniqueness lookup fails with a non-404
classification (the provider lookup succeeds). -/
def repoNameLookupDown : IMarket Unit :=
  { getProviderByID := fun _ _ => (some ⟨"P1"⟩, none)
    getMarketByName := fun _ _ => (none, some { code := 500, message := "db down" })
    createMarket := fun s _ => (none, s)
    getMarketWithProviderByID := fun _ _ =>
      (none, some { code := 404, message := "record not found" }) }

/-- C1: a non-404 failure of the name-uniqueness lookup makes `CreateMarket`
return an INTERNAL (500) error with message "Failed to check market
existence: " followed by the underlying message, distinct from the CONFLICT
error, with no write issued and the store state unchanged. -/
theorem createMarket_nameLookup_error_internal {σ : Type} (repo : IMarket σ)
    (genId : String) (s : σ) (req : MarketRequest) (p : Option Provider)
    (m : Option Market) (e : ErrorResponse)
    (hp : repo.getProviderByID s req.providerID = (p, none))
    (hn : repo.getMarketByName s req.name = (m, some e))
    (hcode : e.code ≠ 404) :
    CreateMarket repo genId s req =
      ⟨none, some { code := 500,
                    message := "Failed to check market existence: " ++ e.message },
        s, []⟩ ∧
    (CreateMarket repo genId s req).err ≠
      some { code := 400, message := "Market already exists" } := by
  unfold CreateMarket
  rw [hp, hn]
  simp [hcode]

/-- C1 witness: the theorem instantiated at a concrete repository stub. -/
theorem createMarket_nameLookup_error_internal_witness :
    CreateMarket repoNameLookupDown "g1" () reqA =
      ⟨none, some { code := 500,
                    message := "Failed to check market existence: db down" },
        (), []⟩ ∧
    (CreateMarket repoNameLookupDown "g1" () reqA).err ≠
      some { code := 400, message := "Market already exists" } :=
  createMarket_nameLookup_error_internal repoNameLookupDown "g1" () reqA
    (some ⟨"P1"⟩) none { code := 500, message := "db down" } rfl rfl (by decide)

/-- C2: when the request's provider identifier resolves to no provider in
the store, `CreateMarket` returns NOT_FOUND (404, "Provider not found"),
issues no write, and leaves the store unchanged. -/
theorem createMarket_parent_absent_notFound (s : Store) (genId : String)
    (req : MarketRequest)
    (hp : s.providers.find? (fun p => p.id == req.providerID) = none) :
    CreateMarket storeRepo genId s req =
      ⟨none, some { code := 404, message := "Provider not found" }, s, []⟩ := by
  unfold CreateMarket storeRepo Store.getProviderByID
  simp [hp]

/-- C2 witness: the theorem instantiated at the empty store. -/
theorem createMarket_parent_absent_notFound_witness :
    CreateMarket storeRepo "g1" emptyStore reqA =
      ⟨none, some { code := 404, message := "Provider not found" }, emptyStore, []⟩ :=
  createMarket_parent_absent_notFound emptyStore "g1" reqA rfl

/-- A repository stub whose provider lookup fails with an INTERNAL-style
classification (code 500), not a not-found. -/
def repoProviderLookupDown : IMarket Unit :=
  { getProviderByID := fun _ _ =>
      (none, some { code := 500, message := "database connection lost" })
    getMarketByName := fun _ _ =>
      (none, some { code := 404, message := "record not found" })
    createMarket := fun s _ => (none, s)
    getMarketWithProviderByID := fun _ _ =>
      (none, some { code := 404, message := "record not found" }) }

/-- A repository stub whose write fails (checks pass, enrichment unused). -/
def repoWriteDown : IMarket Unit :=
  { getProviderByID := fun _ _ => (some ⟨"P1"⟩, none)
    getMarketByName := fun _ _ =>
      (none, some { code := 404, message := "record not found" })
    createMarket := fun s _ => (some "disk full", s)
    getMarketWithProviderByID := fun _ _ =>
      (none, some { code := 404, message := "record not found" }) }

/-- An in-memory store with provider "P1", no markets, and every enrichment
read failing transiently with message "read timeout". -/
def enrichDownStore : Store := ⟨[⟨"P1"⟩], [], fun _ => some "read timeout"⟩

/-- C3 counterexample: when the provider lookup fails with classification
500 ("database connection lost"), `CreateMarket` does not return an
INTERNAL error embedding that message — it returns 404 "Provider not
found", discarding the collaborator's message. -/
theorem createMarket_parentLookup_not_failClosed :
    (CreateMarket repoProviderLookupDown "g1" () reqA).err =
      some { code := 404, message := "Provider not found" } ∧
    (CreateMarket repoProviderLookupDown "g1" () reqA).err ≠
      some { code := 500,
             message := "Failed to check provider existence: database connection lost" } := by
  constructor
  · rfl
  · decide

/-- C3 amended: failures of the name-uniqueness lookup (non-404), of the
persist, and of the enrichment read each surface as INTERNAL (500) errors
whose message embeds the underlying collaborator's message; but any failure
of the parent lookup `GetProviderByID` — whatever its classification — is
reclassified as NOT_FOUND (404, "Provider not found") and its underlying
message is discarded. -/
theorem createMarket_failsClosed_amended {σ : Type} (repo : IMarket σ)
    (genId : String) (s : σ) (req : MarketRequest) :
    (∀ p e, repo.getProviderByID s req.providerID = (p, some e) →
       CreateMarket repo genId s req =
         ⟨none, some { code := 404, message := "Provider not found" }, s, []⟩) ∧
    (∀ p m e, repo.getProviderByID s req.providerID = (p, none) →
       repo.getMarketByName s req.name = (m, some e) → e.code ≠ 404 →
       (CreateMarket repo genId s req).err =
         some { code := 500,
                message := "Failed to check market existence: " ++ e.message }) ∧
    (∀ p r2, repo.getProviderByID s req.providerID = (p, none) →
       repo.getMarketByName s req.name = (none, r2) →
       (∀ e, r2 = some e → e.code = 404) →
       ∀ msg s1, repo.createMarket s (marketEntityOf genId req) = (some msg, s1) →
       (CreateMarket repo genId s req).err =
         some { code := 500, message := "Failed to create market: " ++ msg }) ∧
    (∀ p r2, repo.getProviderByID s req.providerID = (p, none) →
       repo.getMarketByName s req.name = (none, r2) →
       (∀ e, r2 = some e → e.code = 404) →
       ∀ s1, repo.createMarket s (marketEntityOf genId req) = (none, s1) →
       ∀ m e, repo.getMarketWithProviderByID s1 genId = (m, some e) →
       (CreateMarket repo genId s req).err =
         some { code := 500,
                message := "Failed to retrieve market details: " ++ e.message }) := by
  refine ⟨?_, ?_, ?_, ?_⟩
  · intro p e hp
    unfold CreateMarket
    rw [hp]
  · intro p m e hp hn hcode
    unfold CreateMarket
    rw [hp, hn]
    simp [hcode]
  · intro p r2 hp hn h404 msg s1 hw
    unfold CreateMarket
    rw [hp, hn]
    rcases r2 with _ | e
    · simp [createMarketAfterNameCheck, hw]
    · have he : e.code = 404 := h404 e rfl
      simp [he, createMarketAfterNameCheck, hw]
  · intro p r2 hp hn h404 s1 hw m e hr
    unfold CreateMarket
    have hid : (marketEntityOf genId req).id = genId := rfl
    rcases r2 with _ | e2
    · rw [hp, hn]
      simp [createMarketAfterNameCheck, hw, hid, hr]
    · have he : e2.code = 404 := h404 e2 rfl
      rw [hp, hn]
      simp [he, createMarketAfterNameCheck, hw, hid, hr]

/-- C3 witness: the amended theorem instantiated at concrete stubs for each
of the four failure sites. -/
theorem createMarket_failsClosed_amended_witness :
    CreateMarket repoProviderLookupDown "g1" () reqA =
      ⟨none, some { code := 404, message := "Provider not found" }, (), []⟩ ∧
    (CreateMarket repoNameLookupDown "g1" () reqA).err =
      some { code := 500,
             message := "Failed to check market existence: " ++ "db down" } ∧
    (CreateMarket repoWriteDown "g1" () reqA).err =
      some { code := 500, message := "Failed to create market: " ++ "disk full" } ∧
    (CreateMarket storeRepo "g1" enrichDownStore reqA).err =
      some { code := 500,
             message := "Failed to retrieve market details: " ++ "read timeout" } := by
  refine ⟨?_, ?_, ?_, ?_⟩
  · exact (createMarket_failsClosed_amended repoProviderLookupDown "g1" () reqA).1
      none { code := 500, message := "database connection lost" } rfl
  · exact (createMarket_failsClosed_amended repoNameLookupDown "g1" () reqA).2.1
      (some ⟨"P1"⟩) none { code := 500, message := "db down" } rfl rfl (by decide)
  · exact (createMarket_failsClosed_amended repoWriteDown "g1" () reqA).2.2.1
      (some ⟨"P1"⟩) (some { code := 404, message := "record not found" }) rfl rfl
      (fun e he => by cases he; rfl) "disk full" () rfl
  · exact (createMarket_failsClosed_amended storeRepo "g1" enrichDownStore reqA).2.2.2
      (some ⟨"P1"⟩) (some { code := 404, message := "record not found" }) rfl rfl
      (fun e he => by cases he; rfl)
      { enrichDownStore with markets := [marketEntityOf "g1" reqA] } rfl
      none { code := 500, message := "read timeout" } rfl

/-- An in-memory store already holding a market named "Central Market"
(identifier "m0") but no provider at all. -/
def conflictNoParentStore : Store := ⟨[], [marketEntityOf "m0" reqA], fun _ => none⟩

/-- An in-memory store holding provider "P1" and a market named
"Central Market" (identifier "m0"). -/
def conflictStore : Store := ⟨[⟨"P1"⟩], [marketEntityOf "m0" reqA], fun _ => none⟩

/-- C4 counterexample: for a request whose name "Central Market" already
exists among the markets but whose provider identifier resolves to no
provider, `CreateMarket` returns 404 "Provider not found", not the CONFLICT
error — the conflict answer is not independent of parent validity. -/
theorem createMarket_conflict_not_parent_independent :
    (CreateMarket storeRepo "g1" conflictNoParentStore reqA).err =
      some { code := 404, message := "Provider not found" } ∧
    (CreateMarket storeRepo "g1" conflictNoParentStore reqA).err ≠
      some { code := 400, message := "Market already exists" } := by
  constructor
  · rfl
  · decide

/-- C4 amended: provided the parent-existence check passes (the parent
lookup runs first and its failure takes precedence), a request whose name
already exists among the markets makes `CreateMarket` return CONFLICT
(400, "Market already exists") with no write issued and the store
unchanged. -/
theorem createMarket_conflict (s : Store) (genId : String) (req : MarketRequest)
    (p : Provider) (m : Market)
    (hp : s.providers.find? (fun q => q.id == req.providerID) = some p)
    (hm : s.markets.find? (fun x => x.name == req.name) = some m) :
    CreateMarket storeRepo genId s req =
      ⟨none, some { code := 400, message := "Market already exists" }, s, []⟩ := by
  unfold CreateMarket storeRepo Store.getProviderByID Store.getMarketByName
  simp [hp, hm, createMarketAfterNameCheck]

/-- C4 witness: the amended theorem instantiated at a store holding both
the provider and a market with the requested name. -/
theorem createMarket_conflict_witness :
    CreateMarket storeRepo "g1" conflictStore reqA =
      ⟨none, some { code := 400, message := "Market already exists" },
        conflictStore, []⟩ :=
  createMarket_conflict conflictStore "g1" reqA ⟨"P1"⟩ (marketEntityOf "m0" reqA)
    rfl rfl

/-- Finding in an appended singleton: when nothing in `l` satisfies `p` and
`a` does, the first hit in `l ++ [a]` is `a`. -/
theorem find?_append_singleton {α : Type} (l : List α) (p : α → Bool) (a : α)
    (h : l.find? p = none) (ha : p a = true) : (l ++ [a]).find? p = some a := by
  rw [List.find?_append, h]
  simp [List.find?, ha]

/-- An in-memory store holding only provider "P1", all reads working. -/
def providerStore : Store := ⟨[⟨"P1"⟩], [], fun _ => none⟩

/-- C5: when the provider exists, no market carries the requested name, the
generated identifier is non-empty and unused, and the enrichment read works,
`CreateMarket` appends exactly one market to the store — `marketEntityOf
genId req`, whose identifier is the generated one and whose other fields are
copied verbatim from the request — and returns it with no error; its
provider identifier matches the request's. -/
theorem createMarket_success (s : Store) (genId : String) (req : MarketRequest)
    (p : Provider)
    (hp : s.providers.find? (fun q => q.id == req.providerID) = some p)
    (hname : s.markets.find? (fun m => m.name == req.name) = none)
    (hgen : genId ≠ "")
    (hfresh : ∀ m ∈ s.markets, m.id ≠ genId)
    (hread : s.enrichFailure genId = none) :
    CreateMarket storeRepo genId s req =
      ⟨some (marketEntityOf genId req), none,
        { s with markets := s.markets ++ [marketEntityOf genId req] },
        [marketEntityOf genId req]⟩ ∧
    (marketEntityOf genId req).id = genId ∧
    (marketEntityOf genId req).id ≠ "" ∧
    (marketEntityOf genId req).providerID = req.providerID ∧
    (marketEntityOf genId req).name = req.name ∧
    (marketEntityOf genId req).address = req.address ∧
    (marketEntityOf genId req).description = req.description ∧
    (marketEntityOf genId req).image = req.image ∧
    (marketEntityOf genId req).openTime = req.openTime ∧
    (marketEntityOf genId req).closeTime = req.closeTime ∧
    (marketEntityOf genId req).latitude = req.latitude ∧
    (marketEntityOf genId req).longitude = req.longitude := by
  have hfind : s.markets.find? (fun m => m.id == genId) = none := by
    rw [List.find?_eq_none]
    intro m hm
    simpa using hfresh m hm
  have happ : (s.markets ++ [marketEntityOf genId req]).find?
      (fun m => m.id == genId) = some (marketEntityOf genId req) := by
    exact find?_append_singleton _ _ _ hfind (by simp [marketEntityOf])
  refine ⟨?_, rfl, hgen, rfl, rfl, rfl, rfl, rfl, rfl, rfl, rfl, rfl⟩
  unfold CreateMarket storeRepo Store.getProviderByID Store.getMarketByName
  simp only [hp, hname]
  unfold createMarketAfterNameCheck Store.createMarket
  simp only [Option.isSome_none, Bool.false_eq_true, if_false]
  unfold Store.getMarketWithProviderByID
  have hid : (marketEntityOf genId req).id = genId := rfl
  rw [hid]
  simp [hread, hfind, hid]

/-- C5 witness: the theorem's first component instantiated at the
provider-only store with generated identifier "g1". -/
theorem createMarket_success_witness :
    CreateMarket storeRepo "g1" providerStore reqA =
      ⟨some (marketEntityOf "g1" reqA), none,
        { providerStore with
            markets := providerStore.markets ++ [marketEntityOf "g1" reqA] },
        [marketEntityOf "g1" reqA]⟩ ∧
    (marketEntityOf "g1" reqA).id = "g1" ∧
    (marketEntityOf "g1" reqA).providerID = reqA.providerID :=
  have h := createMarket_success providerStore "g1" reqA ⟨"P1"⟩ rfl rfl
    (by decide) (by simp [providerStore]) rfl
  ⟨h.1, h.2.1, h.2.2.2.1⟩

/-- C6: when both precondition checks pass and the repository write fails
with message `msg`, `CreateMarket` returns INTERNAL (500, "Failed to create
market: " followed by the underlying message) and has issued the write
exactly once (the writes trace is the single mapped entity; no retry). -/
theorem createMarket_persist_error_internal {σ : Type} (repo : IMarket σ)
    (genId : String) (s : σ) (req : MarketRequest) (p : Option Provider)
    (r2 : Option ErrorResponse) (msg : String) (s1 : σ)
    (hp : repo.getProviderByID s req.providerID = (p, none))
    (hn : repo.getMarketByName s req.name = (none, r2))
    (h404 : ∀ e, r2 = some e → e.code = 404)
    (hw : repo.createMarket s (marketEntityOf genId req) = (some msg, s1)) :
    CreateMarket repo genId s req =
      ⟨none, some { code := 500, message := "Failed to create market: " ++ msg },
        s1, [marketEntityOf genId req]⟩ := by
  unfold CreateMarket
  rw [hp, hn]
  rcases r2 with _ | e
  · simp [createMarketAfterNameCheck, hw]
  · have he : e.code = 404 := h404 e rfl
    simp [he, createMarketAfterNameCheck, hw]

/-- C6 witness: the theorem instantiated at the failing-write stub. -/
theorem createMarket_persist_error_internal_witness :
    CreateMarket repoWriteDown "g1" () reqA =
      ⟨none,
        some { code := 500, message := "Failed to create market: " ++ "disk full" },
        (), [marketEntityOf "g1" reqA]⟩ :=
  createMarket_persist_error_internal repoWriteDown "g1" () reqA (some ⟨"P1"⟩)
    (some { code := 404, message := "record not found" }) "disk full" () rfl rfl
    (fun e he => by cases he; rfl) rfl

/-- C7: when the checks pass, the write succeeds, and the enrichment read
fails transiently with message `msg`, `CreateMarket` returns INTERNAL
(500, "Failed to retrieve market details: " followed by the underlying
message), yet the created entity remains in the store: the final state keeps
the appended entity and a direct lookup by the generated identifier finds
it (no rollback). -/
theorem createMarket_enrichment_error (s : Store) (genId : String)
    (req : MarketRequest) (p : Provider) (msg : String)
    (hp : s.providers.find? (fun q => q.id == req.providerID) = some p)
    (hname : s.markets.find? (fun m => m.name == req.name) = none)
    (hfresh : ∀ m ∈ s.markets, m.id ≠ genId)
    (hfail : s.enrichFailure genId = some msg) :
    CreateMarket storeRepo genId s req =
      ⟨none,
        some { code := 500,
               message := "Failed to retrieve market details: " ++ msg },
        { s with markets := s.markets ++ [marketEntityOf genId req] },
        [marketEntityOf genId req]⟩ ∧
    (CreateMarket storeRepo genId s req).state.markets.find?
        (fun m => m.id == genId) = some (marketEntityOf genId req) := by
  have hfind : s.markets.find? (fun m => m.id == genId) = none := by
    rw [List.find?_eq_none]
    intro m hm
    simpa using hfresh m hm
  have hmain : CreateMarket storeRepo genId s req =
      ⟨none,
        some { code := 500,
               message := "Failed to retrieve market details: " ++ msg },
        { s with markets := s.markets ++ [marketEntityOf genId req] },
        [marketEntityOf genId req]⟩ := by
    unfold CreateMarket storeRepo Store.getProviderByID Store.getMarketByName
    simp only [hp, hname]
    unfold createMarketAfterNameCheck Store.createMarket
    simp only [Option.isSome_none, Bool.false_eq_true, if_false]
    unfold Store.getMarketWithProviderByID
    have hid : (marketEntityOf genId req).id = genId := rfl
    rw [hid]
    simp [hfail]
  refine ⟨hmain, ?_⟩
  rw [hmain]
  exact find?_append_singleton _ _ _ hfind (by simp [marketEntityOf])

/-- C7 witness: the theorem instantiated at the store whose enrichment
reads fail with "read timeout". -/
theorem createMarket_enrichment_error_witness :
    CreateMarket storeRepo "g1" enrichDownStore reqA =
      ⟨none,
        some { code := 500,
               message := "Failed to retrieve market details: " ++ "read timeout" },
        { enrichDownStore with
            markets := enrichDownStore.markets ++ [marketEntityOf "g1" reqA] },
        [marketEntityOf "g1" reqA]⟩ ∧
    (CreateMarket storeRepo "g1" enrichDownStore reqA).state.markets.find?
        (fun m => m.id == "g1") = some (marketEntityOf "g1" reqA) :=
  createMarket_enrichment_error enrichDownStore "g1" reqA ⟨"P1"⟩ "read timeout"
    rfl rfl (by simp [enrichDownStore]) rfl

/-- C8: the error taxonomy of `CreateMarket` is closed — over any
repository behaviour and any input, an error outcome carries code 404, 400,
or 500 and nothing else. -/
theorem createMarket_error_codes_closed {σ : Type} (repo : IMarket σ)
    (genId : String) (s : σ) (req : MarketRequest) (e : ErrorResponse)
    (h : (CreateMarket repo genId s req).err = some e) :
    e.code = 404 ∨ e.code = 400 ∨ e.code = 500 := by
  rcases h1 : repo.getProviderByID s req.providerID with ⟨p1, e1⟩
  rcases e1 with _ | e1
  · rcases h2 : repo.getMarketByName s req.name with ⟨m2, e2⟩
    rcases e2 with _ | e2
    · rcases m2 with _ | m2
      · rcases h3 : repo.createMarket s (marketEntityOf genId req) with ⟨w3, s3⟩
        rcases w3 with _ | w3
        · rcases h4 : repo.getMarketWithProviderByID s3 (marketEntityOf genId req).id
            with ⟨m4, e4⟩
          rcases e4 with _ | e4
          · simp [CreateMarket, createMarketAfterNameCheck, h1, h2, h3, h4] at h
          · simp [CreateMarket, createMarketAfterNameCheck, h1, h2, h3, h4] at h
            simp [← h]
        · simp [CreateMarket, createMarketAfterNameCheck, h1, h2, h3] at h
          simp [← h]
      · simp [CreateMarket, createMarketAfterNameCheck, h1, h2] at h
        simp [← h]
    · by_cases hc : e2.code = 404
      · rcases m2 with _ | m2
        · rcases h3 : repo.createMarket s (marketEntityOf genId req) with ⟨w3, s3⟩
          rcases w3 with _ | w3
          · rcases h4 : repo.getMarketWithProviderByID s3 (marketEntityOf genId req).id
              with ⟨m4, e4⟩
            rcases e4 with _ | e4
            · simp [CreateMarket, createMarketAfterNameCheck, h1, h2, h3, h4, hc] at h
            · simp [CreateMarket, createMarketAfterNameCheck, h1, h2, h3, h4, hc] at h
              simp [← h]
          · simp [CreateMarket, createMarketAfterNameCheck, h1, h2, h3, hc] at h
            simp [← h]
        · simp [CreateMarket, createMarketAfterNameCheck, h1, h2, hc] at h
          simp [← h]
      · simp [CreateMarket, createMarketAfterNameCheck, h1, h2, hc] at h
        simp [← h]
  · simp [CreateMarket, h1] at h
    simp [← h]

/-- C8 witness: the theorem instantiated at the empty store, where the
outcome is the 404 error. -/
theorem createMarket_error_codes_closed_witness :
    (CreateMarket storeRepo "g1" emptyStore reqA).err =
      some { code := 404, message := "Provider not found" } ∧
    ((404 : Int) = 404 ∨ (404 : Int) = 400 ∨ (404 : Int) = 500) :=
  ⟨rfl, createMarket_error_codes_closed storeRepo "g1" emptyStore reqA
    { code := 404, message := "Provider not found" } rfl⟩

/-! Embedding of the user handlers (`Handlers/user_handler.go`) and the
user use case (`Usecase/user_usecase.go`).  The use-case lookup delegates
to the repository; both return a Go `error`, modelled as `Except String`
(the error is a bare message with no classification tag). -/

/-- Projection `dtos.GetUserResponse` (fields read and written by the
handler); the bookings are carried opaquely. -/
structure GetUserResponse where
  id : String
  username : String
  email : String
  bookings : List String
  firstName : String
  lastName : String
deriving Repr, DecidableEq

/-- The Go zero value `dtos.GetUserResponse{}` used in error bodies. -/
def emptyGetUserResponse : GetUserResponse := ⟨"", "", "", [], "", ""⟩

/-- Transport-level reply of `UserHandler.GetUserByID`: the fiber status
and the JSON body fields ("error", "message", "data"). -/
structure UserIDResponse where
  status : Int
  errorField : Option String
  messageField : Option String
  data : Option GetUserResponse
deriving Repr, DecidableEq

/-- Shallow embedding of `UserHandler.GetUserByID`
(`Handlers/user_handler.go`): on a lookup error the status is chosen by
comparing the error's message text with the literal "user not found"
(404 on equality, 500 otherwise); on success the response is rebuilt field
by field with status 200. -/
def getUserByIDHandler (getUser : String → Except String GetUserResponse)
    (userId : String) : UserIDResponse :=
  match getUser userId with
  | .error errMsg =>
      if errMsg == "user not found" then
        { status := 404, errorField := some "User not found",
          messageField := some "No user found with the provided ID",
          data := some emptyGetUserResponse }
      else
        { status := 500, errorField := some "Internal Server Error",
          messageField := some errMsg, data := some emptyGetUserResponse }
  | .ok user =>
      { status := 200, errorField := none, messageField := none,
        data := some { id := user.id, username := user.username,
                       email := user.email, bookings := user.bookings,
                       firstName := user.firstName, lastName := user.lastName } }

/-- C9 counterexample: two lookup failures that differ only in raw message
text receive different statuses — the handler's 404/500 choice is driven by
the message text of the error, not by any classification tag (the Go
`error` value carries none). -/
theorem getUserByID_status_depends_on_message_text :
    (getUserByIDHandler (fun _ => .error "user not found") "u1").status = 404 ∧
    (getUserByIDHandler (fun _ => .error "no such user") "u1").status = 500 := by
  constructor
  · rfl
  · rfl

/-- C9 amended: for every error outcome of the user lookup, the handler
selects the status by comparing the error's raw message text with the
literal "user not found": equality yields the 404 response, anything else
the 500 response echoing the message (no classification tag exists on the
error value). -/
theorem getUserByID_selects_status_by_message
    (getUser : String → Except String GetUserResponse) (userId : String)
    (errMsg : String) (h : getUser userId = .error errMsg) :
    getUserByIDHandler getUser userId =
      (if errMsg == "user not found" then
        { status := 404, errorField := some "User not found",
          messageField := some "No user found with the provided ID",
          data := some emptyGetUserResponse }
      else
        { status := 500, errorField := some "Internal Server Error",
          messageField := some errMsg, data := some emptyGetUserResponse }) := by
  unfold getUserByIDHandler
  rw [h]

/-- C9 witness: the amended theorem instantiated at a lookup failing with
the exact literal message. -/
theorem getUserByID_selects_status_by_message_witness :
    getUserByIDHandler (fun _ => .error "user not found") "u1" =
      { status := 404, errorField := some "User not found",
        messageField := some "No user found with the provided ID",
        data := some emptyGetUserResponse } :=
  getUserByID_selects_status_by_message
    (fun _ => .error "user not found") "u1" "user not found" rfl

/-- Transport-level reply of `UserHandler.DeleteUser`: the fiber status and
the JSON body fields ("error", "message", "user_id"). -/
structure DeleteUserResponse where
  status : Int
  errorField : Option String
  messageField : Option String
  userId : Option String
deriving Repr, DecidableEq

/-- Shallow embedding of `UserUseCase.DeleteUser`
(`Usecase/user_usecase.go`): delegates to the repository and wraps any
failure message as "use case error: " followed by it. -/
def userUseCaseDeleteUser (repoDelete : String → Option String)
    (id : String) : Option String :=
  match repoDelete id with
  | some errMsg => some ("use case error: " ++ errMsg)
  | none => none

/-- Shallow embedding of `UserHandler.DeleteUser`
(`Handlers/user_handler.go`): compares the authenticated identifier from
the token with the path identifier; on mismatch replies 403 without calling
the use case, otherwise invokes the delete use case once and maps its
outcome to 500 or 200.  The second component records the identifiers the
use case was invoked on. -/
def deleteUserHandler (deleteUser : String → Option String)
    (userIdFromToken userIdToDelete : String) :
    DeleteUserResponse × List String :=
  if userIdFromToken ≠ userIdToDelete then
    (⟨403, some "You are not authorized to delete this user", none, none⟩, [])
  else
    match deleteUser userIdToDelete with
    | some _ => (⟨500, some "Failed to delete user", none, none⟩, [userIdToDelete])
    | none =>
        (⟨200, none, some "User deleted successfully", some userIdToDelete⟩,
          [userIdToDelete])

/-- C10: the delete use case is invoked exactly when the token identifier
equals the path identifier; on mismatch the handler replies 403 ("You are
not authorized to delete this user") and performs no deletion. -/
theorem deleteUser_authorization (del : String → Option String)
    (tok path : String) :
    ((deleteUserHandler del tok path).2 ≠ [] ↔ tok = path) ∧
    (tok = path → (deleteUserHandler del tok path).2 = [path]) ∧
    (tok ≠ path → deleteUserHandler del tok path =
      (⟨403, some "You are not authorized to delete this user", none, none⟩,
        [])) := by
  by_cases h : tok = path
  · subst h
    rcases hdel : del tok with _ | msg <;>
      simp [deleteUserHandler, hdel]
  · simp [deleteUserHandler, h]

/-- C10 witness: the theorem instantiated on a mismatching and a matching
pair of identifiers. -/
theorem deleteUser_authorization_witness :
    deleteUserHandler (userUseCaseDeleteUser fun _ => none) "u1" "u2" =
      (⟨403, some "You are not authorized to delete this user", none, none⟩,
        []) ∧
    (deleteUserHandler (userUseCaseDeleteUser fun _ => none) "u1" "u1").2 =
      ["u1"] :=
  ⟨(deleteUser_authorization (userUseCaseDeleteUser fun _ => none) "u1" "u2").2.2
      (by decide),
    (deleteUser_authorization (userUseCaseDeleteUser fun _ => none) "u1" "u1").2.1
      rfl⟩
